import Mathlib

/-!
# Verification of the CyberGIS-Compute job lifecycle client

Shallow embedding of `src/cybergis_compute_client/Job.py` (class `Job`).
Python dicts with known keys become structures; the transport and the
filesystem are passed in as explicit data; side effects (network calls,
file writes, sleeps) are returned as traces.
-/

namespace CyberGIS

/-- An event as observed in a job status response:
`{type, message, createdAt}` (spec §3, and the rows built in
`Job.events`, Job.py lines 141-145). -/
structure Event where
  type : String
  message : String
  createdAt : String
deriving DecidableEq, Repr

/-- A log entry `{message, createdAt}` (Job.py lines 174-177). -/
structure LogEntry where
  message : String
  createdAt : String
deriving DecidableEq, Repr

/-- `o['type'] == 'JOB_ENDED' or o['type'] == 'JOB_FAILED'`
(Job.py line 147 and lines 190-191). -/
def terminalEvent (o : Event) : Bool :=
  o.type == "JOB_ENDED" || o.type == "JOB_FAILED"

/-! ## `Job.events(liveOutput=True)` — Job.py lines 127-158

The loop keeps a list `events` of already-emitted rows; each poll fetches
a snapshot `out`, flushes `out[len(events):]` one row at a time, and
or-accumulates `isEnd` per emitted event.  The supply of snapshots (one
per poll the service would answer) is passed in as a list; running off
its end models a loop that would keep polling. -/

/-- The inner flush loop (Job.py lines 138-155): starting from the rows
already emitted, append each new event one at a time, accumulating
`isEnd = isEnd or terminal(o)` per event.  Returns the emitted rows and
the final `isEnd`. -/
def flushEvents (emitted : List Event) (isEnd : Bool) : List Event → List Event × Bool
  | [] => (emitted, isEnd)
  | o :: rest => flushEvents (emitted ++ [o]) (isEnd || terminalEvent o) rest

/-- The outer polling loop (`while (not isEnd)`, Job.py lines 133-158).
Returns `(emitted rows, number of polls issued, terminated?)`; the third
component is `false` only when the snapshot supply ran out with the loop
still going. -/
def eventsLoop (emitted : List Event) : List (List Event) → List Event × Nat × Bool
  | [] => (emitted, 0, false)
  | out :: rest =>
    let r := flushEvents emitted false (out.drop emitted.length)
    if r.2 then (r.1, 1, true)
    else
      let t := eventsLoop r.1 rest
      (t.1, t.2.1 + 1, t.2.2)

/-- `Job.events(liveOutput=True)`: the loop starts with `events = []`
(seen-count 0) and `isEnd = False` (Job.py lines 131-132). -/
def eventsLive (snapshots : List (List Event)) : List Event × Nat × Bool :=
  eventsLoop [] snapshots

/-! ## `Job.logs(liveOutput=True)` — Job.py lines 160-197

Each cycle flushes the new log lines, then scans the events list of the
same status snapshot for a terminal event; the last statement of the
cycle is `if isEnd: time.sleep(refreshRateInSeconds)` (lines 196-197):
the code sleeps exactly when a terminal event WAS found. -/

/-- One status snapshot as consumed by `Job.logs`: its log list and its
event list. -/
structure StatusSnapshot where
  logs : List LogEntry
  events : List Event
deriving DecidableEq, Repr

/-- The event scan of `Job.logs` (Job.py lines 188-194): walk the events
list, reassigning `isEnd` to whether the current event is terminal and
breaking as soon as it is. -/
def scanEvents : List Event → Bool
  | [] => false
  | e :: rest => if terminalEvent e then true else scanEvents rest

/-- The outer `while (not isEnd)` loop of `Job.logs` (lines 166-197).
Returns `(emitted log rows, number of polls issued, sleep trace)`: the
sleep trace records, cycle by cycle, whether `time.sleep` ran at the end
of that cycle. -/
def logsLoop (emitted : List LogEntry) : List StatusSnapshot → List LogEntry × Nat × List Bool
  | [] => (emitted, 0, [])
  | st :: rest =>
    let emitted' := emitted ++ st.logs.drop emitted.length
    let isEnd := scanEvents st.events
    if isEnd then (emitted', 1, [true])
    else
      let t := logsLoop emitted' rest
      (t.1, t.2.1 + 1, false :: t.2.2)

/-- `Job.logs(liveOutput=True)`: starts with `logs = []`, `isEnd = False`
(Job.py lines 164-165). -/
def logsLive (snapshots : List StatusSnapshot) : List LogEntry × Nat × List Bool :=
  logsLoop [] snapshots

/-! ## Construction — `Job.__init__`, Job.py lines 14-67 -/

/-- The record persisted to (and loaded from) the identity file
`job_constructor_<id>.json`: exactly the four keys written by
`json.dump` at Job.py line 51. -/
structure ConstructorRecord where
  secretToken : String
  id : String
  hpc : String
  maintainer : String
deriving DecidableEq, Repr

/-- `'./job_constructor_' + id + '.json'` (Job.py lines 21, 50). -/
def constructorFileName (id : String) : String :=
  "job_constructor_" ++ id ++ ".json"

/-- `self.body` as initialised at Job.py lines 62-67: `param`, `env`,
`slurm` are empty dicts, `executableFolder` is `None`, and the
`dataFolder` / `resultFolder` keys are absent (they only appear once
`Job.set` stores them, so `none` marks the absent key). -/
structure JobBody where
  param : List (String × String)
  env : List (String × String)
  slurm : List (String × String)
  executableFolder : Option String
  dataFolder : Option String
  resultFolder : Option String
deriving DecidableEq, Repr

/-- The fresh body of Job.py lines 62-67. -/
def initialBody : JobBody :=
  { param := [], env := [], slurm := [],
    executableFolder := none, dataFolder := none, resultFolder := none }

/-- The instance state a successful `Job.__init__` leaves behind:
`self.maintainer` (line 17), `self.id` (line 59), `self.hpc` (line 60),
the secret handed to `self.JAT.init` (line 61) and `self.body`
(lines 62-67).  `maintainer` stays an `Option` because line 17 stores
the constructor argument, which may be `None`. -/
structure JobState where
  id : String
  hpc : String
  maintainer : Option String
  secretToken : String
  body : JobBody
deriving DecidableEq, Repr

/-- A transport call `client.request(method, path, params)`; param
values keep Python's possible `None` (e.g. `req['password']`). -/
structure NetCall where
  method : String
  path : String
  params : List (String × Option String)
deriving DecidableEq, Repr

/-- The service's answer to the create-job request
(`out['hpc']`, `out['secretToken']`, `out['id']`, Job.py lines 47-49). -/
structure RegResponse where
  id : String
  hpc : String
  secretToken : String
deriving DecidableEq, Repr

/-- The request body built at Job.py lines 34-45: `{'maintainer': m}`,
plus `'hpc'` when supplied, plus `'user'`/`'password'` when `user` is
not `None`. -/
def freshRequestBody (m : String) (hpc user password : Option String) :
    List (String × Option String) :=
  [("maintainer", some m)]
    ++ (match hpc with | some h => [("hpc", some h)] | none => [])
    ++ (match user with
        | some u => [("user", some u), ("password", password)]
        | none => [])

/-- `Job.__init__` (Job.py lines 14-67), with the filesystem passed in as
`files : String → Option ConstructorRecord` and the service's
registration answer as `service`.  Returns the trace of network calls,
the identity files written, and either the error message `raise`d or the
resulting instance state.

Faithful detail: in the restore branch (lines 20-29) the locals `id`,
`sT`, `hpc`, `maintainer` are rebound from the file, but
`self.maintainer` was already assigned from the constructor ARGUMENT at
line 17 and is never reassigned — so the persisted maintainer does not
reach the instance.  `self.id` and `self.hpc` (lines 59-60) are assigned
after the branch and do take the file's values. -/
def jobInit (maintainer hpc id user password : Option String)
    (files : String → Option ConstructorRecord) (service : RegResponse) :
    List NetCall × List (String × ConstructorRecord) × Except String JobState :=
  match id with
  | some jid =>
    match files (constructorFileName jid) with
    | some c =>
      ([], [],
       .ok { id := c.id, hpc := c.hpc, maintainer := maintainer,
             secretToken := c.secretToken, body := initialBody })
    | none =>
      ([], [],
       .error ("jobID provided but constructor file [job_constructor_"
               ++ jid ++ ".json] not found"))
  | none =>
    match maintainer with
    | none => ([], [], .error "maintainer cannot by NoneType")
    | some m =>
      let call : NetCall :=
        { method := "POST", path := "/job",
          params := freshRequestBody m hpc user password }
      ([call],
       [(constructorFileName service.id,
         { secretToken := service.secretToken, id := service.id,
           hpc := service.hpc, maintainer := m })],
       .ok { id := service.id, hpc := service.hpc, maintainer := some m,
             secretToken := service.secretToken, body := initialBody })

/-! ## `Job.set` — Job.py lines 112-125

Every guard is `if field:` — Python truthiness, so `None`, `''` and `{}`
all leave the prior value alone. -/

/-- Python truthiness of an optional string argument:
`None` and `''` are falsy. -/
def truthyStr : Option String → Bool
  | none => false
  | some s => !s.isEmpty

/-- Python truthiness of an optional dict argument:
`None` and `{}` are falsy. -/
def truthyDict : Option (List (String × String)) → Bool
  | none => false
  | some d => !d.isEmpty

/-- `Job.set(executableFolder, dataFolder, resultFolder, param, env,
slurm)` (Job.py lines 112-125): each truthy argument overwrites its
entry of `self.body`; the print at line 125 is dropped. -/
def jobSet (b : JobBody) (executableFolder dataFolder resultFolder : Option String)
    (param env slurm : Option (List (String × String))) : JobBody :=
  let b := if truthyStr executableFolder
           then { b with executableFolder := executableFolder } else b
  let b := if truthyStr dataFolder
           then { b with dataFolder := dataFolder } else b
  let b := if truthyStr resultFolder
           then { b with resultFolder := resultFolder } else b
  let b := if truthyDict param then { b with param := param.getD [] } else b
  let b := if truthyDict env then { b with env := env.getD [] } else b
  if truthyDict slurm then { b with slurm := slurm.getD [] } else b

/-! ## `Job.downloadResultFolder` — Job.py lines 207-236 -/

/-- Modelled from the spec: the JAT credential token manager (module
`JAT`, not under `src/`) "deterministically derives a token from the
configured secret and job id using the chosen digest algorithm"
(spec §4.1); `Job.__init__` picks `'md5'` (Job.py line 61).  The digest
itself is opaque to the client, so the derivation is modelled as an
injective tagging of its inputs. -/
def getAccessToken (algorithm id secretToken : String) : String :=
  algorithm ++ ":" ++ id ++ ":" ++ secretToken

/-- The params `{'accessToken': token}` used by `status()` and friends. -/
def tokenParams (st : JobState) : List (String × Option String) :=
  [("accessToken", some (getAccessToken "md5" st.id st.secretToken))]

/-- The status response as consumed by `downloadResultFolder`:
only key presence of `resultFolder` matters
(`'resultFolder' not in jobStatus`, Job.py line 213); `none` models the
absent key. -/
structure StatusResp where
  resultFolder : Option String
deriving DecidableEq, Repr

/-- A transport side effect issued by `downloadResultFolder`: either a
`client.request` or a `client.download` (method, path, params, destDir). -/
inductive NetOp where
  | request (call : NetCall)
  | download (method path : String) (params : List (String × Option String))
      (destDir : String)
deriving DecidableEq, Repr

/-- What `downloadResultFolder` can hand back: the globus branch returns
the raw service response (modelled by its request), the local branch a
local path; any other scheme falls off the end of the function, i.e.
Python returns `None`. -/
inductive DlResult where
  | response (call : NetCall)
  | localPath (p : String)
deriving DecidableEq, Repr

/-- Helper for `pySplit3`: prepend a character to the first piece of a
split result. -/
def consHead (c : Char) : List (List Char) → List (List Char)
  | [] => [[c]]
  | p :: ps => (c :: p) :: ps

/-- Python's `s.split('://')` on the character list of `s`, specialised
to the one separator the source uses (Job.py line 216): scan left to
right, cutting at each non-overlapping occurrence of `"://"`. -/
def pySplit3 : List Char → List (List Char)
  | [] => [[]]
  | ':' :: '/' :: '/' :: rest => [] :: pySplit3 rest
  | c :: rest => consHead c (pySplit3 rest)

/-- `s.split('://')` as a function on strings. -/
def pySplitSep (s : String) : List String :=
  (pySplit3 s.data).map String.mk

/-- `os.path.join(a, b)` for POSIX: an absolute `b` discards `a`;
otherwise the parts are joined with exactly one `'/'`. -/
def osPathJoin (a b : String) : String :=
  if b.data.head? = some '/' then b
  else if a = "" then b
  else if a.data.getLast? = some '/' then a ++ b
  else a ++ "/" ++ b

/-- The status fetch of Job.py line 211 (via `self.status()`,
lines 199-205). -/
def statusFetchOp (st : JobState) : NetOp :=
  .request { method := "GET", path := "/job/" ++ st.id, params := tokenParams st }

/-- `Job.downloadResultFolder(dir)` (Job.py lines 207-236) for a live
`id` (the `self.id is None` guard at line 208 cannot fire: `JobState.id`
is the established id).  The status fetch of line 211 is the first
element of the returned trace; everything after it is the branch's own
transport activity.  `jobStatus` is the service's answer to that fetch.
`pySplitSep rf` mirrors Python's `rf.split('://')`; any split shape
other than two pieces `raise`s the (sic) 'formate' error of line 218. -/
def downloadResultFolder (st : JobState) (jobStatus : StatusResp) (dir : String) :
    List NetOp × Except String (Option DlResult) :=
  let statusFetch : NetOp := statusFetchOp st
  match jobStatus.resultFolder with
  | none => ([statusFetch], .error "executable folder is not ready")
  | some rf =>
    match pySplitSep rf with
    | [fileType, fileId] =>
      if fileType = "globus" then
        let call : NetCall :=
          { method := "GET", path := "/file",
            params := tokenParams st ++ [("fileUrl", some rf)] }
        ([statusFetch, .request call], .ok (some (.response call)))
      else if fileType = "local" then
        let dest := osPathJoin dir fileId
        ([statusFetch,
          .download "GET" "/file" (tokenParams st ++ [("fileUrl", some rf)]) dest],
         .ok (some (.localPath dest)))
      else ([statusFetch], .ok none)
    | _ => ([statusFetch], .error "invalid result folder formate provided")

/-! ## `Job.uploadExecutableFolder` — Job.py lines 96-110

`os.walk(folder_path, followlinks=True)` is the Python standard
library; its output — the `(root, files)` pairs it yields, with
symlinked subtrees included and each file's bytes — is taken as input
data `walk`.  The staging of each file is the source's own computation:
`p = os.path.join(root.replace(folder_path, ''), f)` (line 103),
where Python's `str.replace` substitutes EVERY non-overlapping
occurrence of `folder_path` in `root`, not only the leading one. -/

/-- Python's `s.replace(pat, rep)` on character lists, driven by a fuel
that starts at the length of `s` (each step consumes at least one
character, so the fuel never runs out; an empty `pat` is treated as a
no-op, a case the source never exercises since `folder_path` is an
absolute path). -/
def pyReplaceAux (pat rep : List Char) : Nat → List Char → List Char
  | _, [] => []
  | 0, s => s
  | fuel + 1, c :: rest =>
    if pat.isPrefixOf (c :: rest) && !pat.isEmpty then
      rep ++ pyReplaceAux pat rep fuel ((c :: rest).drop pat.length)
    else
      c :: pyReplaceAux pat rep fuel rest

/-- `s.replace(pat, rep)` as a function on strings. -/
def pyReplace (s pat rep : String) : String :=
  String.mk (pyReplaceAux pat.data rep.data s.data.length s.data)

/-- One directory yielded by `os.walk`: its `root` path and the
`(name, bytes)` of each regular file directly inside it (file contents
are kept as strings). -/
structure WalkDir where
  root : String
  files : List (String × String)
deriving DecidableEq, Repr

/-- The staging loop of Job.py lines 100-104: for every walked file,
`zip.append(p, content)` with
`p = os.path.join(root.replace(folder_path, ''), f)`.  The archive is
the list of appended `(path, content)` pairs, in walk order. -/
def stageFiles (folderPath : String) (walk : List WalkDir) :
    List (String × String) :=
  (walk.map fun d =>
    d.files.map fun fc =>
      (osPathJoin (pyReplace d.root folderPath "") fc.1, fc.2)).flatten

/-- The staging the spec asks for: every walked file at its relative
path rooted at the walked folder, i.e. `root` with its leading
`folderPath` prefix stripped (written from the spec's words
"preserve relative paths rooted at the walked folder", for comparison
with `stageFiles`). -/
def stageFilesSpec (folderPath : String) (walk : List WalkDir) :
    List (String × String) :=
  (walk.map fun d =>
    d.files.map fun fc =>
      (osPathJoin (String.mk (d.root.data.drop folderPath.data.length)) fc.1,
       fc.2)).flatten

/-- The upload response; the source keeps `response['file']`
(Job.py line 109). -/
structure UploadResponse where
  file : String
deriving DecidableEq, Repr

/-- An upload side effect `client.upload(path, params, bytes)`
(Job.py lines 106-108); the payload is the staged archive. -/
structure UploadOp where
  path : String
  params : List (String × Option String)
  payload : List (String × String)
deriving DecidableEq, Repr

/-- `Job.uploadExecutableFolder(folder_path)` (Job.py lines 96-110):
stage the walked files into the archive, upload it with the access
token, store `response['file']` into `self.body['executableFolder']`,
and return the raw response.  `folderPath` is already absolute
(line 97); `walk` is the output of `os.walk(folder_path,
followlinks=True)`; `response` is the transport's answer. -/
def uploadExecutableFolder (st : JobState) (folderPath : String)
    (walk : List WalkDir) (response : UploadResponse) :
    JobState × UploadOp × UploadResponse :=
  let op : UploadOp :=
    { path := "/file", params := tokenParams st,
      payload := stageFiles folderPath walk }
  ({ st with body := { st.body with executableFolder := some response.file } },
   op, response)

/-! ## Sample data used by witnesses and counterexamples -/

/-- A non-terminal informational event. -/
def infoEvent : Event :=
  { type := "INFO", message := "running", createdAt := "t1" }

/-- A terminal `JOB_ENDED` event. -/
def endedEvent : Event :=
  { type := "JOB_ENDED", message := "done", createdAt := "t2" }

/-- An event a correctly terminating loop never gets to see. -/
def extraEvent : Event :=
  { type := "INFO", message := "after the end", createdAt := "t3" }

/-- First sample log line. -/
def logA : LogEntry := { message := "log line 1", createdAt := "t1" }

/-- Second sample log line. -/
def logB : LogEntry := { message := "log line 2", createdAt := "t2" }

/-- A status snapshot of a still-running job: one log line, no terminal
event. -/
def runningSnap : StatusSnapshot :=
  { logs := [logA], events := [infoEvent] }

/-- A status snapshot of a finished job: two log lines, terminal event
present. -/
def endedSnap : StatusSnapshot :=
  { logs := [logA, logB], events := [infoEvent, endedEvent] }

/-- A sample instance state with a live id. -/
def sampleState : JobState :=
  { id := "job1", hpc := "keeling_community", maintainer := some "hello_world",
    secretToken := "sec", body := initialBody }

/-- A helper characterisation of `jobSet`: each entry of the resulting
body is the argument when it is truthy and the prior entry otherwise. -/
theorem jobSet_eq (b : JobBody) (ef df rf : Option String)
    (p e s : Option (List (String × String))) :
    jobSet b ef df rf p e s =
      { executableFolder := if truthyStr ef then ef else b.executableFolder,
        dataFolder := if truthyStr df then df else b.dataFolder,
        resultFolder := if truthyStr rf then rf else b.resultFolder,
        param := if truthyDict p then p.getD [] else b.param,
        env := if truthyDict e then e.getD [] else b.env,
        slurm := if truthyDict s then s.getD [] else b.slurm } := by
  unfold jobSet
  repeat' split
  all_goals rfl

/-! ## Claims -/

/-- C1: `events(liveOutput=True)` starts from seen-count 0, emits every
event beyond the seen count incrementally and in order
(`flushEvents emitted isEnd new = (emitted ++ new, isEnd || any terminal)`,
with `isEnd` or-accumulated event by event), and the polling loop stops
the moment the flushed batch contained a terminal event: it answers
after exactly one poll, never touching the remaining snapshots.  Fed the
sequence where poll 1 returns no events and poll 2 returns
`[INFO, JOB_ENDED]`, it emits exactly those two events in order and
terminates after two polls — a third snapshot is available but never
polled. -/
theorem C1_events_live_incremental_until_terminal :
    (∀ emitted isEnd newEvents, flushEvents emitted isEnd newEvents
        = (emitted ++ newEvents, isEnd || newEvents.any terminalEvent))
  ∧ (∀ emitted out rest,
      (flushEvents emitted false (out.drop emitted.length)).2 = true →
      eventsLoop emitted (out :: rest)
        = ((flushEvents emitted false (out.drop emitted.length)).1, 1, true))
  ∧ eventsLive [[], [infoEvent, endedEvent], [infoEvent, endedEvent, extraEvent]]
      = ([infoEvent, endedEvent], 2, true) := by
  refine ⟨?_, ?_, by decide⟩
  · intro emitted isEnd newEvents
    induction newEvents generalizing emitted isEnd with
    | nil => simp [flushEvents]
    | cons o rest ih =>
      simp [flushEvents, ih, Bool.or_assoc]
  · intro emitted out rest h
    simp [eventsLoop, h]

/-- C1 witness: a batch whose only new event is terminal makes the loop
answer after one poll, leaving the remaining snapshot unpolled. -/
theorem C1_events_live_witness :
    eventsLoop [] ([endedEvent] :: [[extraEvent]]) = ([endedEvent], 1, true) :=
  C1_events_live_incremental_until_terminal.2.1 [] [endedEvent] [[extraEvent]]
    (by decide)

/-- C2 (code bug): in `Job.logs` the sleep guard is inverted.  On a
status sequence whose first snapshot has no terminal event and whose
second has one, the sleep trace is `[false, true]`: the cycle that found
NO terminal event polled again immediately without sleeping, and the
cycle that found the terminal event slept `refreshRateInSeconds` just
before exiting — the spec asks for the exact opposite
(`events` at Job.py line 157 has the correct `if not isEnd` guard;
`logs` at line 196 has `if isEnd`). -/
theorem C2_logs_sleep_guard_inverted :
    logsLive [runningSnap, endedSnap] = ([logA, logB], 2, [false, true])
  ∧ scanEvents runningSnap.events = false
  ∧ scanEvents endedSnap.events = true := by decide

/-- C3 (code bug): a fresh registration with maintainer `"m"` persists
the record `{secretToken := "s1", id := "j1", hpc := "h1",
maintainer := "m"}`, but constructing a new client with that id alone
(all other arguments `None`) against a filesystem holding exactly that
file yields an instance whose `maintainer` is `none`, not `some "m"`:
Job.py line 27 rebinds only the local `maintainer`, while
`self.maintainer` got the constructor argument at line 17 and is never
reassigned.  `id` and `hpc` do round-trip. -/
theorem C3_restore_drops_maintainer :
    (jobInit (some "m") none none none none (fun _ => none)
        { id := "j1", hpc := "h1", secretToken := "s1" }).2.1
      = [(constructorFileName "j1",
          { secretToken := "s1", id := "j1", hpc := "h1", maintainer := "m" })]
  ∧ (jobInit none none (some "j1") none none
        (fun n => if n = constructorFileName "j1"
                  then some { secretToken := "s1", id := "j1", hpc := "h1",
                              maintainer := "m" }
                  else none)
        { id := "", hpc := "", secretToken := "" }).2.2
      = .ok { id := "j1", hpc := "h1", maintainer := none,
              secretToken := "s1", body := initialBody } := by
  constructor
  · rfl
  · simp [jobInit, constructorFileName]

/-- C4 counterexample: the claim fails as stated.  Call `set` once with
the non-null `executableFolder := "exe"`, then once with the disjoint
non-null field `dataFolder := ""` (an empty string is not null): the
final configuration does NOT contain the union of both calls' fields —
`dataFolder` is still absent, because Job.py line 115 guards with
Python truthiness (`if dataFolder:`), which an empty value fails. -/
theorem C4_set_nonnull_counterexample :
    (some "" ≠ (none : Option String))
  ∧ (jobSet (jobSet initialBody (some "exe") none none none none none)
       none (some "") none none none none).dataFolder = none := by decide

/-- C4 amended: `set` merges only TRUTHY fields (non-null and
non-empty): a field passed as null or as an empty value leaves the
prior value of that field unchanged, calling it with all-null fields is
a no-op on the configuration, and calling it twice with disjoint truthy
fields results in the union of both calls' fields being present. -/
theorem C4_set_merges_truthy_fields :
    (∀ b ef df rf p e s,
        (truthyStr ef = false →
          (jobSet b ef df rf p e s).executableFolder = b.executableFolder)
      ∧ (truthyStr df = false →
          (jobSet b ef df rf p e s).dataFolder = b.dataFolder)
      ∧ (truthyStr rf = false →
          (jobSet b ef df rf p e s).resultFolder = b.resultFolder)
      ∧ (truthyDict p = false → (jobSet b ef df rf p e s).param = b.param)
      ∧ (truthyDict e = false → (jobSet b ef df rf p e s).env = b.env)
      ∧ (truthyDict s = false → (jobSet b ef df rf p e s).slurm = b.slurm))
  ∧ (∀ b, jobSet b none none none none none none = b)
  ∧ (∀ b v w, truthyStr (some v) = true → truthyStr (some w) = true →
        (jobSet (jobSet b (some v) none none none none none)
           none (some w) none none none none).executableFolder = some v
      ∧ (jobSet (jobSet b (some v) none none none none none)
           none (some w) none none none none).dataFolder = some w) := by
  refine ⟨?_, ?_, ?_⟩
  · intro b ef df rf p e s
    refine ⟨fun h => ?_, fun h => ?_, fun h => ?_, fun h => ?_, fun h => ?_,
            fun h => ?_⟩ <;> simp [jobSet_eq, h]
  · intro b
    simp [jobSet_eq, truthyStr, truthyDict]
  · intro b v w hv hw
    have hv' : v.isEmpty = false := by simpa [truthyStr] using hv
    have hw' : w.isEmpty = false := by simpa [truthyStr] using hw
    constructor <;> simp [jobSet_eq, truthyStr, hv', hw']

/-- C4 witness for the amended claim: concrete discharge at the initial
body — a null and an empty field leave everything unchanged, and two
calls with the disjoint truthy fields `"exe"` and `"data"` leave both
present. -/
theorem C4_set_merges_truthy_witness :
    ((jobSet initialBody (some "") none none none none none).executableFolder
        = initialBody.executableFolder)
  ∧ jobSet initialBody none none none none none none = initialBody
  ∧ (jobSet (jobSet initialBody (some "exe") none none none none none)
        none (some "data") none none none none).executableFolder = some "exe"
  ∧ (jobSet (jobSet initialBody (some "exe") none none none none none)
        none (some "data") none none none none).dataFolder = some "data" :=
  ⟨(C4_set_merges_truthy_fields.1 initialBody (some "") none none none none
      none).1 (by decide),
   C4_set_merges_truthy_fields.2.1 initialBody,
   (C4_set_merges_truthy_fields.2.2 initialBody "exe" "data" (by decide)
      (by decide)).1,
   (C4_set_merges_truthy_fields.2.2 initialBody "exe" "data" (by decide)
      (by decide)).2⟩

/-- C5: with a live id, `downloadResultFolder` fetches the status, and
then: a status lacking the `resultFolder` key raises the not-ready
error; a locator whose `'://'`-split does not have exactly two pieces —
in particular the malformed `"weird_format_no_scheme"` — raises the
invalid-format error; in both cases the returned transport trace is
the status fetch alone, so no further network call is performed. -/
theorem C5_download_not_ready_and_invalid_format :
    (∀ st dir, downloadResultFolder st { resultFolder := none } dir
        = ([statusFetchOp st], .error "executable folder is not ready"))
  ∧ (∀ st dir rf, (pySplitSep rf).length ≠ 2 →
      downloadResultFolder st { resultFolder := some rf } dir
        = ([statusFetchOp st], .error "invalid result folder formate provided"))
  ∧ (∀ st dir,
      downloadResultFolder st { resultFolder := some "weird_format_no_scheme" } dir
        = ([statusFetchOp st],
           .error "invalid result folder formate provided")) := by
  refine ⟨fun st dir => rfl, ?_, fun st dir => rfl⟩
  intro st dir rf h
  unfold downloadResultFolder
  rcases hs : pySplitSep rf with _ | ⟨a, _ | ⟨b, _ | ⟨c, t⟩⟩⟩ <;>
    simp [hs] at h ⊢

/-- C5 witness: discharged at the sample state and the malformed locator
of the spec, whose split is a single piece. -/
theorem C5_download_witness :
    downloadResultFolder sampleState
        { resultFolder := some "weird_format_no_scheme" } "dest"
      = ([statusFetchOp sampleState],
         .error "invalid result folder formate provided") :=
  C5_download_not_ready_and_invalid_format.2.1 sampleState "dest"
    "weird_format_no_scheme" (by decide)

/-- C6: for every result locator with exactly one `'://'` separator
whose scheme is neither `globus` nor `local`, `downloadResultFolder`
falls off the end of the function: it returns `None` (no value, no
error) and its transport trace is the status fetch alone — no download
or transfer request is issued for that scheme (Job.py lines 220-236
simply have no branch for it). -/
theorem C6_unknown_scheme_falls_through :
    ∀ st dir rf a b, pySplitSep rf = [a, b] → a ≠ "globus" → a ≠ "local" →
      downloadResultFolder st { resultFolder := some rf } dir
        = ([statusFetchOp st], .ok none) := by
  intro st dir rf a b hs ha hb
  unfold downloadResultFolder
  simp [hs, ha, hb]

/-- C6 witness: the scheme `ftp` falls through at the sample state. -/
theorem C6_unknown_scheme_witness :
    downloadResultFolder sampleState { resultFolder := some "ftp://x" } "dest"
      = ([statusFetchOp sampleState], .ok none) :=
  C6_unknown_scheme_falls_through sampleState "dest" "ftp://x" "ftp" "x"
    (by decide) (by decide) (by decide)

/-- C7: both misuse cases of construction fail fast with no transport
activity at all: an `id` with no matching identity file raises the
missing-constructor-file error, and a fresh construction (`id = None`)
with `maintainer = None` raises the invalid-maintainer error; in both
cases the network-call trace and the file-write trace are empty. -/
theorem C7_construction_fails_fast :
    (∀ m hpc user password files service jid,
        files (constructorFileName jid) = none →
        jobInit m hpc (some jid) user password files service
          = ([], [],
             .error ("jobID provided but constructor file [job_constructor_"
                     ++ jid ++ ".json] not found")))
  ∧ (∀ hpc user password files service,
        jobInit none hpc none user password files service
          = ([], [], .error "maintainer cannot by NoneType")) := by
  refine ⟨?_, fun hpc user password files service => rfl⟩
  intro m hpc user password files service jid h
  simp [jobInit, h]

/-- C7 witness: discharged on the empty filesystem with id `"jobX"`, and
on the fresh path with everything `None`. -/
theorem C7_construction_fails_fast_witness :
    jobInit none none (some "jobX") none none (fun _ => none)
        { id := "", hpc := "", secretToken := "" }
      = ([], [],
         .error ("jobID provided but constructor file [job_constructor_"
                 ++ "jobX" ++ ".json] not found")) :=
  C7_construction_fails_fast.1 none none none none (fun _ => none)
    { id := "", hpc := "", secretToken := "" } "jobX" rfl

/-- C8 (code bug): the staging path of `uploadExecutableFolder` is
computed with `root.replace(folder_path, '')`, which removes EVERY
occurrence of the folder path, not just the leading one.  Walking the
folder `"/a"` whose subdirectory `"/a/a"` holds a file `f`, the code
stages that file at `"f"` — colliding with any top-level file of the
same name — whereas its relative path rooted at the walked folder is
`"/a" ++ "/f"`; so the archive's set of (path, content) pairs differs
from the walked set. -/
theorem C8_staging_replaces_all_occurrences :
    stageFiles "/a" [{ root := "/a", files := [("top", "T")] },
                     { root := "/a/a", files := [("f", "c")] }]
      = [("top", "T"), ("f", "c")]
  ∧ stageFilesSpec "/a" [{ root := "/a", files := [("top", "T")] },
                         { root := "/a/a", files := [("f", "c")] }]
      = [("top", "T"), ("/a/f", "c")]
  ∧ stageFiles "/a" [{ root := "/a/a", files := [("f", "c")] }]
      ≠ stageFilesSpec "/a" [{ root := "/a/a", files := [("f", "c")] }] := by
  decide

/-- C9: the identity file written at fresh registration contains exactly
the record `{secretToken, id, hpc, maintainer}` (Job.py line 51), and
the written files are identical for any two supplied passwords — the
password never reaches the persisted record. -/
theorem C9_password_never_persisted :
    ∀ m hpc user p1 p2 files service,
      (jobInit (some m) hpc none user p1 files service).2.1
        = [(constructorFileName service.id,
            { secretToken := service.secretToken, id := service.id,
              hpc := service.hpc, maintainer := m })]
    ∧ (jobInit (some m) hpc none user p1 files service).2.1
        = (jobInit (some m) hpc none user p2 files service).2.1 :=
  fun _ _ _ _ _ _ _ => ⟨rfl, rfl⟩

/-- C10: `uploadExecutableFolder` touches only the `executableFolder`
entry of the configuration body (Job.py line 109 is its only state
mutation): it becomes the response's file reference, while `param`,
`env`, `slurm`, `dataFolder`, `resultFolder` and the identity fields
`id`, `hpc`, `maintainer` all keep their prior values, for every state,
walk and transport response. -/
theorem C10_upload_frame :
    ∀ st folderPath walk response,
      ((uploadExecutableFolder st folderPath walk response).1.body.executableFolder
          = some response.file)
    ∧ ((uploadExecutableFolder st folderPath walk response).1.body.param
          = st.body.param)
    ∧ ((uploadExecutableFolder st folderPath walk response).1.body.env
          = st.body.env)
    ∧ ((uploadExecutableFolder st folderPath walk response).1.body.slurm
          = st.body.slurm)
    ∧ ((uploadExecutableFolder st folderPath walk response).1.body.dataFolder
          = st.body.dataFolder)
    ∧ ((uploadExecutableFolder st folderPath walk response).1.body.resultFolder
          = st.body.resultFolder)
    ∧ ((uploadExecutableFolder st folderPath walk response).1.id = st.id)
    ∧ ((uploadExecutableFolder st folderPath walk response).1.hpc = st.hpc)
    ∧ ((uploadExecutableFolder st folderPath walk response).1.maintainer
          = st.maintainer) :=
  fun _ _ _ _ => ⟨rfl, rfl, rfl, rfl, rfl, rfl, rfl, rfl, rfl⟩

end CyberGIS
